import Mathlib

/-!
Shallow embedding of the ASAUpdater repository (src/ASAUpdater.py,
src/helpers/device_helper.py, src/helpers/threading_helper.py).

The per-device upgrade workflow `upgrade_asa`, the credential-fallback
connector `DeviceHelper.connect_to_device`, the backup writer
`DeviceHelper.backup_config` and the worker-pool dispatcher
`ThreadingHelper.run` are translated into executable Lean definitions.
External effects (netmiko calls, SCP transfer, filesystem, ICMP) are
abstracted by an environment record `Env` whose fields give the outcome of
each external call; the side effects the code performs are recorded in an
explicit event trace so that claims about commands issued, or not issued,
can be stated over the trace.
-/

/-- Outcome of one `ConnectHandler(**device)` attempt (including the optional
`connection.enable()` call that follows it, device_helper.py lines 218-221).
`authFail` models `NetMikoAuthenticationException`, `timeout` models
`NetMikoTimeoutException`; other exception types the external netmiko library
might raise are outside the model (none of the claims depend on them). -/
inductive AttemptOutcome
  | success
  | authFail
  | timeout
deriving DecidableEq, Repr

/-- One credential set, as built by `DeviceHelper.get_credentials`:
username, password and an optional enable secret. (The source copies these
into a mutable `device` dict; with all three keys handled per iteration as in
device_helper.py lines 197-208, the dict passed to netmiko for credential `c`
is determined by `c` alone, which is what this record captures.) -/
structure Cred where
  username : String
  password : String
  secret : Option String := none
deriving DecidableEq, Repr

/-- A connection candidate: one credential set paired with one device type,
the loop variables `c` and `d` of device_helper.py lines 195 and 210. -/
abbrev Cand := Cred × String

/-- Python exception values relevant to this codebase. `connectionException`
is the repository-defined `ConnectionException` (device_helper.py line 11),
raised only by `connect_to_device`. `otherError` stands for any exception
type that `upgrade_asa` has no handler for (e.g. SCP-level errors). -/
inductive PyExc
  | connectionException (msg : String)
  | valueError (msg : String)
  | typeError (msg : String)
  | attributeError (attr : String)
  | otherError (msg : String)
deriving DecidableEq, Repr

/-- The nested credential/device-type loops of `connect_to_device`
(device_helper.py lines 195-234) visit candidates in the flattened order
credential-major, device-type-minor. -/
def cands (credentials : List Cred) (device_type : List String) : List Cand :=
  credentials.flatMap (fun c => device_type.map (fun d => (c, d)))

/-- The candidates actually attempted by the fallback search: on
`NetMikoAuthenticationException` the inner `except` is a `pass` and the loops
continue with the next candidate; on success the function returns; on
`NetMikoTimeoutException` the exception is re-raised (line 234), escaping both
loops. In every case the search stops at the first non-authFail outcome. -/
def searchTrace (attempt : Cand → AttemptOutcome) : List Cand → List Cand
  | [] => []
  | p :: ps =>
    match attempt p with
    | .authFail => p :: searchTrace attempt ps
    | _ => [p]

/-- Terminal status of the fallback search over a candidate list. -/
inductive SearchStatus
  | success
  | exhausted
  | timedOut
deriving DecidableEq, Repr

/-- Status of the search: first non-authFail outcome decides; if all
candidates fail authentication the search is exhausted. -/
def searchStatus (attempt : Cand → AttemptOutcome) : List Cand → SearchStatus
  | [] => .exhausted
  | p :: ps =>
    match attempt p with
    | .authFail => searchStatus attempt ps
    | .success => .success
    | .timeout => .timedOut

/-- `DeviceHelper.connect_to_device` (device_helper.py lines 137-244).
Returns the list of candidates attempted together with the result.
With an empty credential list the `if credentials:` test fails and
`ConnectionException("No Credentials provided")` is raised with no attempt
made (lines 242-244). Otherwise the nested loops run; exhaustion raises
`ConnectionException("Unable to connect to device")` (line 238, not caught
by the surrounding `except NetMikoTimeoutException`), and a re-raised
timeout is converted to `ConnectionException("Connection to device timed
out")` (lines 240-241). The session handle is abstracted to `Unit`. -/
def connect_to_device (credentials : List Cred) (device_type : List String)
    (attempt : Cand → AttemptOutcome) : List Cand × Except PyExc Unit :=
  if credentials.isEmpty then
    ([], .error (.connectionException "No Credentials provided"))
  else
    let cs := cands credentials device_type
    (searchTrace attempt cs,
      match searchStatus attempt cs with
      | .success => .ok ()
      | .exhausted => .error (.connectionException "Unable to connect to device")
      | .timedOut => .error (.connectionException "Connection to device timed out"))

/-- The `Device` record of ASAUpdater.py lines 54-67, one per target device. -/
structure Device where
  ip_address : String
  name : String := ""
  connected : Bool := false
  successfully_rebooted : Bool := false
  file_uploaded : Bool := false
  error : String := ""
  credentials : List Cred := []
  config_backed_up : Bool := false
deriving DecidableEq, Repr

/-- The run-wide arguments of `upgrade_asa` (ASAUpdater.py lines 70-71). -/
structure Args where
  image_type : String
  image_location : String
  dest_drive : String := "disk0:"
  reboot : Bool := false
  backup_config : Bool := false
  backup_location : String := ""
deriving DecidableEq, Repr

/-- Exceptions that `scp.transfer_file()` can raise: netmiko itself raises
`ValueError` for several transfer-level conditions, and lower layers raise
SCP/socket errors, here `otherErr`. The repository-defined
`ConnectionException` is raised only by `connect_to_device`, never by the
transfer layer, so it is not a possible transfer exception. -/
inductive TransferErr
  | valueError (msg : String)
  | otherErr (msg : String)
deriving DecidableEq, Repr

/-- Embed a transfer-layer exception into the exception universe. -/
def TransferErr.toExc : TransferErr → PyExc
  | .valueError m => .valueError m
  | .otherErr m => .otherError m

/-- Environment: outcome of every external call one run of `upgrade_asa`
can make on one device. -/
structure Env where
  /-- Outcome of `ConnectHandler` plus optional `enable()` per candidate. -/
  attempt : Cand → AttemptOutcome
  /-- Output of `connection.find_prompt()`. -/
  prompt : String
  /-- Output of `connection.send_command("sh run | i ssh scopy enable")`. -/
  scpStatus : String
  /-- Whether `Path(backup_location).is_dir()` holds. -/
  backupIsDir : Bool
  /-- Result of `scp.verify_space_available()`. -/
  spaceAvailable : Bool
  /-- `none` if `scp.transfer_file()` returns, otherwise the exception it raises. -/
  transferExc : Option TransferErr
  /-- Result of `scp.verify_file()`. -/
  verifyOk : Bool
  /-- Result of `DeviceHelper.ping(device.ip_address)`. -/
  pingOk : Bool

/-- Observable side effects of one run, in order. -/
inductive Event
  | connAttempt (p : Cand)
  | findPrompt
  | sendCommand (cmd : String)
  | sendConfigSet (lines : List String)
  | backupAttempt (location : String)
  | ftOpen
  | verifySpace
  | transferFile
  | verifyFile
  | ftClose
  | saveConfig
  | sleep (secs : Nat)
  | ping (host : String)
deriving DecidableEq, Repr

/-- How the body of `upgrade_asa` (the `try` block) finishes: a `return`
(with `ret none` for falling off the end of the function) or an exception. -/
inductive BodyOut
  | ret (v : Option Device)
  | exc (e : PyExc)
deriving DecidableEq, Repr

/-- State after running (part of) `upgrade_asa` on a device: the event
trace, the device record (mutated in place in the source, so its state
survives exceptions), and how control left the code. -/
structure RunOut where
  events : List Event
  dev : Device
  out : BodyOut
deriving DecidableEq, Repr

/-- Split a character list on the slash separator; `acc` is the current
component being read, in reverse. -/
def splitSlashAux : List Char → List Char → List (List Char)
  | acc, [] => [acc.reverse]
  | acc, c :: cs =>
    if c = '/' then acc.reverse :: splitSlashAux [] cs
    else splitSlashAux (c :: acc) cs

/-- `Path(p).name`: the last nonempty component of a POSIX path
(pathlib drops empty components coming from repeated or trailing slashes). -/
def baseName (p : String) : String :=
  ⟨((splitSlashAux [] p.data).filter (fun l => l ≠ [])).getLastD []⟩

/-- Python `str.lower()` for the ASCII command output handled here. -/
def pyLower (s : String) : String :=
  ⟨s.data.map Char.toLower⟩

/-- Python slice `s[0:len(s) - 1]` (ASAUpdater.py line 101): the string
minus its final character; the empty string for the empty string (there the
slice is `s[0:-1]`, which is also empty). -/
def dropLastChar (s : String) : String :=
  ⟨s.data.dropLast⟩

/-- CPython `is` between the freshly allocated string returned by
`output.lower()` and the multi-character literal `"ssh copy enable"`
(ASAUpdater.py line 117): object identity between a new object and an
interned literal, hence always false. -/
def pyStrIs (_lhs _rhs : String) : Bool := false

/-- `DeviceHelper.backup_config` (device_helper.py lines 68-90): on a
non-directory destination it raises
`ValueError("Location is not a directory - " + location)`; on a directory
destination the call `dt.strptime(format=...)` (line 83) invokes
`datetime.strptime` without its required positional arguments and raises
`TypeError` before any file is written. So the call always raises; the
returned value is the exception. -/
def backup_config_call (location : String) (isDir : Bool) : PyExc :=
  if isDir then
    .typeError "strptime missing required positional arguments"
  else
    .valueError ("Location is not a directory - " ++ location)

/-- Methods that a netmiko `BaseConnection` object actually exposes, as used
by this repository. Attribute lookup of any other name raises
`AttributeError`. -/
def connectionMethods : List String :=
  ["enable", "find_prompt", "send_command", "send_config_set",
   "save_config", "disconnect"]

/-- `connection.<method>(lines)` for a config-set style call: if the
attribute exists the command set is sent (recorded in the trace), otherwise
Python attribute lookup raises `AttributeError` and nothing is sent. -/
def invokeConfigSet (method : String) (lines : List String) (evs : List Event) :
    List Event × Option PyExc :=
  if connectionMethods.contains method then
    (evs ++ [Event.sendConfigSet lines], none)
  else
    (evs, some (.attributeError method))

/-- ASAUpdater.py lines 150-183: the block guarded by
`if device.file_uploaded:`. If the file was uploaded, the boot-pointer
command for the image type is sent (lines 153-162: the target path is the
f-string `dest_drive + "/" + image_file_name`), the configuration is saved
(line 166), and, if a reboot was requested, `connection.send_confg_set` is
invoked (line 171) - a misspelling of `send_config_set`, so attribute lookup
raises `AttributeError` there; the dead continuation (confirmation prompt,
5-minute sleep, ping, `return device`, lines 172-183) is kept as the model
of what would run if the attribute existed. Without an uploaded file the
function falls off the end and returns `None`. -/
def bootPhase (env : Env) (a : Args) (device : Device) (evs : List Event) : RunOut :=
  if device.file_uploaded then
    let image_file_name := baseName a.image_location
    let asa_file_path := a.dest_drive ++ "/" ++ image_file_name
    let evs :=
      if pyLower a.image_type == "asa" then
        evs ++ [Event.sendConfigSet (["boot system " ++ asa_file_path])]
      else if pyLower a.image_type == "asdm" then
        evs ++ [Event.sendConfigSet (["asdm image " ++ asa_file_path])]
      else
        evs
    let evs := evs ++ [Event.saveConfig]
    if a.reboot then
      match invokeConfigSet "send_confg_set" (["reboot"]) evs with
      | (evs2, some e) => { events := evs2, dev := device, out := .exc e }
      | (evs2, none) =>
        match invokeConfigSet "send_confg_set" (["y"]) evs2 with
        | (evs3, some e) => { events := evs3, dev := device, out := .exc e }
        | (evs3, none) =>
          let evs4 := evs3 ++ [Event.sleep 300, Event.ping device.ip_address]
          let device := { device with successfully_rebooted := env.pingOk }
          { events := evs4, dev := device, out := .ret (some device) }
    else
      { events := evs, dev := device, out := .ret none }
  else
    { events := evs, dev := device, out := .ret none }

/-- ASAUpdater.py lines 145-148, right after the `with` block: since
`scp_enabled` records the (always-false, see `pyStrIs`) result of the
enabled check, `no ssh scopy enable` is sent whenever control reaches this
point without an exception. Then control moves to the `if
device.file_uploaded:` block. -/
def afterTransfer (env : Env) (a : Args) (device : Device) (evs : List Event)
    (scp_enabled : Bool) : RunOut :=
  let evs :=
    if scp_enabled then evs
    else evs ++ [Event.sendConfigSet (["no ssh scopy enable"])]
  bootPhase env a device evs

/-- ASAUpdater.py lines 112-148: SCP-enabled check (line 115-124), the
`with FileTransfer(...)` block (lines 126-143) and the SCP restore. Inside
the `with`: if space is available the file is transferred; a transfer
exception propagates out of the `with` (the context manager releases the
transfer resource but re-raises, so the SCP restore and everything after it
is skipped); otherwise `verify_file` decides between setting
`file_uploaded = True` and recording the verifier-failure error. With no
space only the error is recorded. -/
def uploadPhase (env : Env) (a : Args) (device : Device) (evs : List Event) : RunOut :=
  let evs := evs ++ [Event.sendCommand "sh run | i ssh scopy enable"]
  let output := env.scpStatus
  let scp_enabled := pyStrIs (pyLower output) "ssh copy enable"
  let evs :=
    if scp_enabled then evs
    else evs ++ [Event.sendConfigSet (["ssh scopy enable"])]
  let evs := evs ++ [Event.ftOpen, Event.verifySpace]
  if env.spaceAvailable then
    let evs := evs ++ [Event.transferFile]
    match env.transferExc with
    | some e => { events := evs ++ [Event.ftClose], dev := device, out := .exc e.toExc }
    | none =>
      let evs := evs ++ [Event.verifyFile]
      let device :=
        if env.verifyOk then { device with file_uploaded := true }
        else { device with error := "File transfer verifier failed" }
      afterTransfer env a device (evs ++ [Event.ftClose]) scp_enabled
  else
    let device := { device with error := "Not enough space to upload file" }
    afterTransfer env a device (evs ++ [Event.ftClose]) scp_enabled

/-- ASAUpdater.py lines 97-110: after a successful connect the device is
marked connected, the prompt is read and the name set to the prompt minus
its last character (line 101), and, when requested, the running config is
fetched and handed to `DeviceHelper.backup_config` - which always raises
(see `backup_config_call`), aborting the sequence. -/
def afterConnect (env : Env) (a : Args) (device : Device) (evs : List Event) : RunOut :=
  let prompt := env.prompt
  let device := { device with name := dropLastChar prompt }
  let evs := evs ++ [Event.findPrompt]
  if a.backup_config then
    let evs := evs ++ [Event.sendCommand "sh run", Event.backupAttempt a.backup_location]
    { events := evs, dev := device,
      out := .exc (backup_config_call a.backup_location env.backupIsDir) }
  else
    uploadPhase env a device evs

/-- The `try` block of `upgrade_asa` (ASAUpdater.py lines 92-183): connect
via `DeviceHelper.connect_to_device` with `device_type=["cisco_asa"]`, then
the later phases. A `ConnectionException` from the connector leaves the
device record untouched. -/
def upgradeBody (env : Env) (a : Args) (device : Device) : RunOut :=
  match connect_to_device device.credentials (["cisco_asa"]) env.attempt with
  | (tr, .error e) =>
    { events := tr.map Event.connAttempt, dev := device, out := .exc e }
  | (tr, .ok _) =>
    afterConnect env a { device with connected := true } (tr.map Event.connAttempt)

/-- `upgrade_asa` (ASAUpdater.py lines 70-194): the body wrapped in the two
exception handlers. `except ConnectionException` and `except ValueError`
(lines 185-194) both set `device.connected = False` and return the device;
any other exception propagates to the caller. `ret` is the value returned
to the caller (`Option Device`, `none` for the `return None` fall-through),
`dev` is the final state of the device record. -/
def upgrade_asa (env : Env) (a : Args) (device : Device) : RunOut :=
  let r := upgradeBody env a device
  match r.out with
  | .exc (.connectionException _m) =>
    let d := { r.dev with connected := false }
    { events := r.events, dev := d, out := .ret (some d) }
  | .exc (.valueError _m) =>
    let d := { r.dev with connected := false }
    { events := r.events, dev := d, out := .ret (some d) }
  | o => { events := r.events, dev := r.dev, out := o }

/-- `ThreadingHelper.run` (threading_helper.py lines 40-68): all items are
enqueued, `num_of_workers` threads race to dequeue; each dequeued item is
processed and its result put on the output queue before `task_done`, and
`input_queue.join()` returns only once every item has been `task_done`-ed,
so at that point the output queue holds exactly one result per input item.
The scheduler determines only the global dequeue order, so a run is modeled
by the dequeue order, a permutation of the input list; the returned
collection is the worker results in that order. (If `worker_func` raises,
the real worker thread dies before `task_done` and `join` blocks forever;
the model covers runs in which `worker_func` returns.) -/
def ThreadingHelper.run {α β : Type _} (worker_func : α → β) (dequeueOrder : List α) :
    List β :=
  dequeueOrder.map worker_func

/-- The worker function used by `main` (ASAUpdater.py line 291): one device
through `upgrade_asa`; what lands on the output queue is the return value
of `upgrade_asa`, here together with a possible uncaught exception. -/
def deviceWorker (env : Env) (a : Args) (d : Device) : BodyOut :=
  (upgrade_asa env a d).out

/-- State of the device-side SCP feature after a run: fold the config
commands of the trace over the initial enabled state. -/
def scpStateAfter (init : Bool) : List Event → Bool
  | [] => init
  | Event.sendConfigSet lines :: rest =>
    if lines = ["ssh scopy enable"] then scpStateAfter true rest
    else if lines = ["no ssh scopy enable"] then scpStateAfter false rest
    else scpStateAfter init rest
  | _ :: rest => scpStateAfter init rest

/-- Whether the connector returned a session handle without raising, for
the credential list carried by the device (as called in upgrade_asa). -/
def connectOk (env : Env) (d : Device) : Bool :=
  match (connect_to_device d.credentials (["cisco_asa"]) env.attempt).2 with
  | .ok _ => true
  | .error _ => false

/-- Whether the body of a run ended by raising a `ValueError`. -/
def valueErrorRaised (r : RunOut) : Bool :=
  match r.out with
  | .exc (.valueError _) => true
  | _ => false

/-- Whether the body of a run ended in one of the two exceptions that
`upgrade_asa` catches (its exception-handling paths). -/
def isExcHandled (r : RunOut) : Bool :=
  match r.out with
  | .exc (.connectionException _) => true
  | .exc (.valueError _) => true
  | _ => false

/-- First fixture credential set. -/
def cred1 : Cred := { username := "u1", password := "p1" }

/-- Second fixture credential set. -/
def cred2 : Cred := { username := "u2", password := "p2" }

/-- Fixture device, fresh as created by `read_csv` plus the credential
population in `main` (ASAUpdater.py lines 277-278). -/
def dev1 : Device := { ip_address := "10.0.0.1", credentials := [cred1] }

/-- Environment in which every external call succeeds. -/
def okEnv : Env :=
  { attempt := fun _ => .success
    prompt := "asa1#"
    scpStatus := ""
    backupIsDir := false
    spaceAvailable := true
    transferExc := none
    verifyOk := true
    pingOk := true }

/-- Arguments: ASA image, no reboot, no backup. -/
def argsNoReboot : Args := { image_type := "asa", image_location := "asdm-741.bin" }

/-- Arguments: ASA image with a reboot requested. -/
def rebootArgs : Args :=
  { image_type := "asa", image_location := "asdm-741.bin", reboot := true }

/-- Arguments: ASA image with a config backup requested. -/
def badBackupArgs : Args :=
  { image_type := "asa", image_location := "asdm-741.bin",
    backup_config := true, backup_location := "backups" }

/-- Environment identical to `okEnv` except that the device-side SCP
feature is already enabled: the status command returns the configured line
`ssh scopy enable`. -/
def envEnabled : Env := { okEnv with scpStatus := "ssh scopy enable" }

/-- Attempt oracle for the C4 witness: the first credential times out. -/
def timeoutAttempt : Cand → AttemptOutcome :=
  fun q => if q.1 = cred1 then .timeout else .success

/-- The path the boot-pointer command targets after a successful upload:
the f-string of ASAUpdater.py line 153, destination drive, a slash, and the
base name of the local image path. -/
def bootTarget (a : Args) : String :=
  a.dest_drive ++ "/" ++ baseName a.image_location

/-- An all-authFail prefix of the candidate list is attempted in full and
the search continues past it. -/
theorem searchTrace_append_authFail (attempt : Cand → AttemptOutcome)
    (pre post : List Cand) (h : ∀ q ∈ pre, attempt q = .authFail) :
    searchTrace attempt (pre ++ post) = pre ++ searchTrace attempt post := by
  induction pre with
  | nil => rfl
  | cons p ps ih =>
    have hp : attempt p = .authFail := h p (by simp)
    have ih2 := ih (fun q hq => h q (by simp [hq]))
    simp [searchTrace, hp, ih2]

/-- An all-authFail prefix does not change the terminal search status. -/
theorem searchStatus_append_authFail (attempt : Cand → AttemptOutcome)
    (pre post : List Cand) (h : ∀ q ∈ pre, attempt q = .authFail) :
    searchStatus attempt (pre ++ post) = searchStatus attempt post := by
  induction pre with
  | nil => rfl
  | cons p ps ih =>
    have hp : attempt p = .authFail := h p (by simp)
    have ih2 := ih (fun q hq => h q (by simp [hq]))
    simp [searchStatus, hp, ih2]

/-- The head of the remaining candidate list is always attempted. -/
theorem mem_searchTrace_head (attempt : Cand → AttemptOutcome) (q : Cand)
    (rest : List Cand) : q ∈ searchTrace attempt (q :: rest) := by
  simp only [searchTrace]
  cases attempt q <;> simp

/-- A non-authFail outcome stops the search at that candidate. -/
theorem searchTrace_stop (attempt : Cand → AttemptOutcome) (p : Cand)
    (rest : List Cand) (h : attempt p ≠ .authFail) :
    searchTrace attempt (p :: rest) = [p] := by
  cases hp : attempt p with
  | authFail => exact absurd hp h
  | success => simp [searchTrace, hp]
  | timeout => simp [searchTrace, hp]

/-- A timeout at the head of the remaining candidates decides the status. -/
theorem searchStatus_head_timeout (attempt : Cand → AttemptOutcome) (p : Cand)
    (rest : List Cand) (h : attempt p = .timeout) :
    searchStatus attempt (p :: rest) = .timedOut := by
  simp only [searchStatus, h]

/-- C4: in the candidate order of the fallback search, if every candidate
before `p` is rejected for authentication and `p` times out, the connector
aborts at once - the attempted candidates are exactly the earlier ones plus
`p`, nothing after `p` is ever attempted - and it fails with the
timed-out `ConnectionFailed` error; whereas if `p` is an
authentication rejection, the next candidate is attempted. -/
theorem C4_timeout_aborts_search (attempt : Cand → AttemptOutcome)
    (credentials : List Cred) (device_type : List String)
    (pre post : List Cand) (p : Cand)
    (hne : credentials ≠ [])
    (hcands : cands credentials device_type = pre ++ p :: post)
    (hpre : ∀ q ∈ pre, attempt q = .authFail) :
    (attempt p = .timeout →
      (connect_to_device credentials device_type attempt).1 = pre ++ [p] ∧
      (connect_to_device credentials device_type attempt).2 =
        .error (.connectionException "Connection to device timed out")) ∧
    (attempt p = .authFail → ∀ q post2, post = q :: post2 →
      q ∈ (connect_to_device credentials device_type attempt).1) := by
  have hempty : credentials.isEmpty = false := by
    cases credentials
    · exact absurd rfl hne
    · rfl
  simp only [connect_to_device, hempty, Bool.false_eq_true, if_false, hcands]
  constructor
  · intro ht
    constructor
    · rw [searchTrace_append_authFail attempt pre _ hpre,
        searchTrace_stop attempt p post (by simp [ht])]
    · rw [searchStatus_append_authFail attempt pre _ hpre,
        searchStatus_head_timeout attempt p post ht]
  · intro ha q post2 hpost
    subst hpost
    rw [searchTrace_append_authFail attempt pre _ hpre]
    simp only [searchTrace, ha]
    exact List.mem_append_right _ (List.mem_cons_of_mem _ (mem_searchTrace_head attempt q post2))

/-- Witness for C4 at a concrete two-credential list whose first candidate
times out. -/
theorem C4_timeout_aborts_search_witness :
    (timeoutAttempt (cred1, "cisco_asa") = .timeout →
      (connect_to_device [cred1, cred2] ["cisco_asa"] timeoutAttempt).1 =
        [] ++ [(cred1, "cisco_asa")] ∧
      (connect_to_device [cred1, cred2] ["cisco_asa"] timeoutAttempt).2 =
        .error (.connectionException "Connection to device timed out")) ∧
    (timeoutAttempt (cred1, "cisco_asa") = .authFail → ∀ q post2,
      [(cred2, "cisco_asa")] = q :: post2 →
      q ∈ (connect_to_device [cred1, cred2] ["cisco_asa"] timeoutAttempt).1) :=
  C4_timeout_aborts_search timeoutAttempt [cred1, cred2] ["cisco_asa"]
    [] [(cred2, "cisco_asa")] (cred1, "cisco_asa")
    (by decide) (by decide) (by simp)

/-- C9: calling the connector with an empty credential list fails at once
with the no-credentials `ConnectionException`, with no candidate attempted
(empty attempt trace, hence no network I/O), and its message differs from
both messages the connector uses for its `ConnectionFailed` outcomes. -/
theorem C9_no_credentials_fails_fast (device_type : List String)
    (attempt : Cand → AttemptOutcome) :
    connect_to_device [] device_type attempt =
      ([], .error (.connectionException "No Credentials provided")) ∧
    "No Credentials provided" ≠ "Unable to connect to device" ∧
    "No Credentials provided" ≠ "Connection to device timed out" :=
  ⟨rfl, by decide, by decide⟩

/-- C5: on a device whose SCP transfer feature is already enabled (the
status command returns the line `ssh scopy enable`), the enabled check of
ASAUpdater.py line 117 (`output.lower() is "ssh copy enable"`, an identity
comparison against a misspelled literal) still evaluates to false, so after
a fully successful upload the run has sent `no ssh scopy enable`: folding
the issued config commands over the initial enabled state `true` leaves the
feature disabled, not equal to its state before the upload step. -/
theorem C5_scp_restore_code_bug :
    pyStrIs (pyLower envEnabled.scpStatus) "ssh copy enable" = false ∧
    Event.sendConfigSet ["no ssh scopy enable"] ∈
      (upgrade_asa envEnabled argsNoReboot dev1).events ∧
    scpStateAfter true (upgrade_asa envEnabled argsNoReboot dev1).events = false := by
  decide

/-- C8: with everything up to the upload succeeding and a reboot requested,
`upgrade_asa` evaluates to an uncaught `AttributeError` on the misspelled
method `send_confg_set` (ASAUpdater.py line 171; the correctly spelled
`send_config_set` does exist): the exception surfaces from the sequencer,
the settle wait and the reachability probe are never reached, and the
device record still has `successfully_rebooted = False`. -/
theorem C8_reboot_code_bug :
    (upgrade_asa okEnv rebootArgs dev1).out =
      .exc (.attributeError "send_confg_set") ∧
    Event.sleep 300 ∉ (upgrade_asa okEnv rebootArgs dev1).events ∧
    Event.ping dev1.ip_address ∉ (upgrade_asa okEnv rebootArgs dev1).events ∧
    (upgrade_asa okEnv rebootArgs dev1).dev.connected = true ∧
    (upgrade_asa okEnv rebootArgs dev1).dev.successfully_rebooted = false ∧
    connectionMethods.contains "send_config_set" = true ∧
    connectionMethods.contains "send_confg_set" = false := by
  decide

/-- C6 counterexample: on a successful upload of `asdm-741.bin` to
`disk0:`, the issued boot-pointer command targets
`disk0:/asdm-741.bin` (the f-string of ASAUpdater.py line 153 inserts a
slash), not the plain concatenation `disk0:asdm-741.bin` of destDrive and
base name, and the two strings differ. -/
theorem C6_boot_target_counterexample :
    (upgrade_asa okEnv argsNoReboot dev1).dev.file_uploaded = true ∧
    Event.sendConfigSet
        ["boot system " ++ (argsNoReboot.dest_drive ++ baseName argsNoReboot.image_location)] ∉
      (upgrade_asa okEnv argsNoReboot dev1).events ∧
    Event.sendConfigSet
        ["boot system " ++ (argsNoReboot.dest_drive ++ "/" ++ baseName argsNoReboot.image_location)] ∈
      (upgrade_asa okEnv argsNoReboot dev1).events ∧
    argsNoReboot.dest_drive ++ "/" ++ baseName argsNoReboot.image_location ≠
      argsNoReboot.dest_drive ++ baseName argsNoReboot.image_location := by
  decide

/-- C2 counterexample: one device, one worker, connection and upload
succeed and no reboot is requested; the dispatcher output is the single
worker return value `None` (ASAUpdater.py falls off the end of
`upgrade_asa`), so the output collection contains no finalized device
record at all, and in particular not one per input device. -/
theorem C2_output_counterexample :
    ThreadingHelper.run (deviceWorker okEnv argsNoReboot) [dev1] =
      [BodyOut.ret none] ∧
    ∀ d : Device, BodyOut.ret (some d) ∉
      ThreadingHelper.run (deviceWorker okEnv argsNoReboot) [dev1] := by
  have h1 : ThreadingHelper.run (deviceWorker okEnv argsNoReboot) [dev1] =
      [BodyOut.ret none] := by decide
  refine ⟨h1, fun d hd => ?_⟩
  rw [h1] at hd
  simp at hd

/-- C2 amended: for any dequeue order (any scheduler interleaving, i.e. any
permutation of the task list) the dispatcher returns after every task has
been processed, and the output collection holds exactly one entry per input
task - the worker return value for that task - so its length is the task
count; the entries are `upgrade_asa` return values, which are the finalized
device only on the exception-handled and reboot paths, and `None`
otherwise. -/
theorem C2_run_all_processed (f : Device → BodyOut) (tasks order : List Device)
    (h : order.Perm tasks) :
    (ThreadingHelper.run f order).length = tasks.length ∧
    (ThreadingHelper.run f order).Perm (tasks.map f) := by
  constructor
  · simp [ThreadingHelper.run, h.length_eq]
  · simpa [ThreadingHelper.run] using h.map f

/-- Witness for the amended C2 on a concrete one-task run. -/
theorem C2_run_all_processed_witness :
    (ThreadingHelper.run (deviceWorker okEnv argsNoReboot) [dev1]).length =
      [dev1].length ∧
    (ThreadingHelper.run (deviceWorker okEnv argsNoReboot) [dev1]).Perm
      ([dev1].map (deviceWorker okEnv argsNoReboot)) :=
  C2_run_all_processed (deviceWorker okEnv argsNoReboot) [dev1] [dev1]
    (List.Perm.refl _)

/-- Looking up the misspelled attribute `send_confg_set` always raises
`AttributeError` and sends nothing. -/
theorem invokeConfigSet_misspelled (lines : List String) (evs : List Event) :
    invokeConfigSet "send_confg_set" lines evs =
      (evs, some (.attributeError "send_confg_set")) := rfl

/-- C1: starting from a fresh device record, `file_uploaded` ends up true
only if space was available, the transfer completed without raising and the
verifier returned true; and whenever `file_uploaded` is not set the run has
issued no save-config call and no config command other than the two SCP
feature toggles - in particular no boot-pointer command and no reboot. -/
theorem C1_upload_gating (env : Env) (a : Args) (d : Device)
    (h0 : d.file_uploaded = false) :
    ((upgrade_asa env a d).dev.file_uploaded = true →
      env.spaceAvailable = true ∧ env.transferExc = none ∧ env.verifyOk = true) ∧
    ((upgrade_asa env a d).dev.file_uploaded = false →
      Event.saveConfig ∉ (upgrade_asa env a d).events ∧
      ∀ lines, Event.sendConfigSet lines ∈ (upgrade_asa env a d).events →
        lines = ["ssh scopy enable"] ∨ lines = ["no ssh scopy enable"]) := by
  rcases hc : connect_to_device d.credentials (["cisco_asa"]) env.attempt with ⟨tr, res⟩
  cases res with
  | error e =>
    cases e <;> simp [upgrade_asa, upgradeBody, hc, h0]
  | ok u =>
    cases u
    cases hb : a.backup_config with
    | true =>
      cases hdir : env.backupIsDir <;>
        simp [upgrade_asa, upgradeBody, afterConnect, backup_config_call,
          hc, hb, hdir, h0]
    | false =>
      cases hs : env.spaceAvailable with
      | false =>
        simp [upgrade_asa, upgradeBody, afterConnect, uploadPhase, afterTransfer,
          bootPhase, pyStrIs, hc, hb, hs, h0]
      | true =>
        cases ht : env.transferExc with
        | some te =>
          cases te <;>
            simp [upgrade_asa, upgradeBody, afterConnect, uploadPhase,
              TransferErr.toExc, pyStrIs, hc, hb, hs, ht, h0]
        | none =>
          cases hv : env.verifyOk with
          | false =>
            simp [upgrade_asa, upgradeBody, afterConnect, uploadPhase, afterTransfer,
              bootPhase, pyStrIs, hc, hb, hs, ht, hv, h0]
          | true =>
            cases hasa : pyLower a.image_type == "asa" <;>
              cases hasdm : pyLower a.image_type == "asdm" <;>
                cases hr : a.reboot <;>
                  simp [upgrade_asa, upgradeBody, afterConnect, uploadPhase,
                    afterTransfer, bootPhase, invokeConfigSet_misspelled, pyStrIs,
                    hc, hb, hs, ht, hv, h0, hasa, hasdm, hr]

/-- Witness for C1 in the all-success environment. -/
theorem C1_upload_gating_witness :
    dev1.file_uploaded = false ∧
    (((upgrade_asa okEnv argsNoReboot dev1).dev.file_uploaded = true →
      okEnv.spaceAvailable = true ∧ okEnv.transferExc = none ∧
        okEnv.verifyOk = true) ∧
    ((upgrade_asa okEnv argsNoReboot dev1).dev.file_uploaded = false →
      Event.saveConfig ∉ (upgrade_asa okEnv argsNoReboot dev1).events ∧
      ∀ lines, Event.sendConfigSet lines ∈ (upgrade_asa okEnv argsNoReboot dev1).events →
        lines = ["ssh scopy enable"] ∨ lines = ["no ssh scopy enable"])) :=
  ⟨rfl, C1_upload_gating okEnv argsNoReboot dev1 rfl⟩

/-- Every error the connector produces is a `ConnectionException`. -/
theorem connect_error_msg (credentials : List Cred) (device_type : List String)
    (attempt : Cand → AttemptOutcome) (e : PyExc)
    (he : (connect_to_device credentials device_type attempt).2 = .error e) :
    ∃ m, e = .connectionException m := by
  unfold connect_to_device at he
  by_cases hemp : credentials.isEmpty
  · simp [hemp] at he
    exact ⟨_, he.symm⟩
  · simp [hemp] at he
    rcases hst : searchStatus attempt (cands credentials device_type) with _ | _ | _ <;>
      rw [hst] at he <;> simp at he
    · exact ⟨_, he.symm⟩
    · exact ⟨_, he.symm⟩

/-- C3 counterexample: the connector returns a session handle without
raising, yet after a backup failure (non-directory destination) the
finalized record has `connected = False`: the `except ValueError` handler of
ASAUpdater.py line 191 resets the flag. -/
theorem C3_connected_counterexample :
    connectOk okEnv dev1 = true ∧
    (upgrade_asa okEnv badBackupArgs dev1).out =
      .ret (some ((upgrade_asa okEnv badBackupArgs dev1).dev)) ∧
    (upgrade_asa okEnv badBackupArgs dev1).dev.connected = false := by
  decide

/-- C3 amended: the final `connected` flag is true iff the connector
returned a session handle without raising AND no `ValueError` was raised
later in the run - a later `ValueError` (a backup failure, or a
transfer-layer `ValueError`) is caught by the handler that resets
`connected` to false. -/
theorem C3_connected_iff (env : Env) (a : Args) (d : Device) :
    (upgrade_asa env a d).dev.connected =
      (connectOk env d && !valueErrorRaised (upgradeBody env a d)) := by
  rcases hc : connect_to_device d.credentials (["cisco_asa"]) env.attempt with ⟨tr, res⟩
  cases res with
  | error e =>
    obtain ⟨m, hm⟩ := connect_error_msg d.credentials (["cisco_asa"]) env.attempt e
      (by rw [hc])
    subst hm
    simp [upgrade_asa, upgradeBody, connectOk, valueErrorRaised, hc]
  | ok u =>
    cases u
    cases hb : a.backup_config with
    | true =>
      cases hdir : env.backupIsDir <;>
        simp [upgrade_asa, upgradeBody, afterConnect, backup_config_call,
          connectOk, valueErrorRaised, hc, hb, hdir]
    | false =>
      cases hf : d.file_uploaded <;>
      cases hs : env.spaceAvailable <;>
      cases hv : env.verifyOk <;>
      by_cases hasa : pyLower a.image_type = "asa" <;>
      by_cases hasdm : pyLower a.image_type = "asdm" <;>
      cases hr : a.reboot <;>
      rcases ht : env.transferExc with _ | te <;>
      first
      | cases te <;>
          simp [upgrade_asa, upgradeBody, afterConnect, uploadPhase, afterTransfer,
            bootPhase, invokeConfigSet_misspelled, TransferErr.toExc, pyStrIs,
            connectOk, valueErrorRaised, hc, hb, hf, hs, hv, hasa, hasdm, hr, ht]
      | simp [upgrade_asa, upgradeBody, afterConnect, uploadPhase, afterTransfer,
          bootPhase, invokeConfigSet_misspelled, TransferErr.toExc, pyStrIs,
          connectOk, valueErrorRaised, hc, hb, hf, hs, hv, hasa, hasdm, hr, ht]

/-- C6 amended: whenever the upload succeeds, the issued boot-pointer
command is the image-type-specific one (`boot system` for the ASA OS image,
`asdm image` for the console image) and it targets exactly
`destDrive ++ "/" ++ baseName(imageLocalPath)`; no config command other
than the SCP toggles and that boot-pointer command is issued. -/
theorem C6_boot_target_slash (env : Env) (a : Args) (d : Device)
    (hconn : connectOk env d = true)
    (hb : a.backup_config = false) (hs : env.spaceAvailable = true)
    (ht : env.transferExc = none) (hv : env.verifyOk = true) :
    (upgrade_asa env a d).dev.file_uploaded = true ∧
    (pyLower a.image_type = "asa" →
      Event.sendConfigSet ["boot system " ++ bootTarget a] ∈
        (upgrade_asa env a d).events) ∧
    (pyLower a.image_type = "asdm" →
      Event.sendConfigSet ["asdm image " ++ bootTarget a] ∈
        (upgrade_asa env a d).events) ∧
    (∀ lines, Event.sendConfigSet lines ∈ (upgrade_asa env a d).events →
      lines = ["ssh scopy enable"] ∨ lines = ["no ssh scopy enable"] ∨
      lines = ["boot system " ++ bootTarget a] ∨
      lines = ["asdm image " ++ bootTarget a]) := by
  rcases hc : connect_to_device d.credentials (["cisco_asa"]) env.attempt with ⟨tr, res⟩
  cases res with
  | error e => simp [connectOk, hc] at hconn
  | ok u =>
    cases u
    by_cases hasa : pyLower a.image_type = "asa" <;>
    by_cases hasdm : pyLower a.image_type = "asdm" <;>
    cases hr : a.reboot <;>
      simp [upgrade_asa, upgradeBody, afterConnect, uploadPhase, afterTransfer,
        bootPhase, invokeConfigSet_misspelled, bootTarget, pyStrIs,
        hc, hb, hs, ht, hv, hasa, hasdm, hr]

/-- Witness for the amended C6 on the all-success ASA-image run. -/
theorem C6_boot_target_slash_witness :
    (upgrade_asa okEnv argsNoReboot dev1).dev.file_uploaded = true ∧
    (pyLower argsNoReboot.image_type = "asa" →
      Event.sendConfigSet ["boot system " ++ bootTarget argsNoReboot] ∈
        (upgrade_asa okEnv argsNoReboot dev1).events) ∧
    (pyLower argsNoReboot.image_type = "asdm" →
      Event.sendConfigSet ["asdm image " ++ bootTarget argsNoReboot] ∈
        (upgrade_asa okEnv argsNoReboot dev1).events) ∧
    (∀ lines, Event.sendConfigSet lines ∈ (upgrade_asa okEnv argsNoReboot dev1).events →
      lines = ["ssh scopy enable"] ∨ lines = ["no ssh scopy enable"] ∨
      lines = ["boot system " ++ bootTarget argsNoReboot] ∨
      lines = ["asdm image " ++ bootTarget argsNoReboot]) :=
  C6_boot_target_slash okEnv argsNoReboot dev1 (by decide) rfl rfl rfl rfl

/-- C7 counterexample: backup requested to a non-directory destination, in
an otherwise all-success environment: the run halts before the upload (the
transfer is never opened) and the device record is finalized and returned,
but its `error` field is the empty string - the ValueError handler of
ASAUpdater.py lines 190-194 logs the message and never stores it on the
device - and `connected` has been reset to false. -/
theorem C7_backup_error_counterexample :
    (upgrade_asa okEnv badBackupArgs dev1).out =
      .ret (some ((upgrade_asa okEnv badBackupArgs dev1).dev)) ∧
    (upgrade_asa okEnv badBackupArgs dev1).dev.error = "" ∧
    (upgrade_asa okEnv badBackupArgs dev1).dev.connected = false ∧
    Event.ftOpen ∉ (upgrade_asa okEnv badBackupArgs dev1).events ∧
    Event.transferFile ∉ (upgrade_asa okEnv badBackupArgs dev1).events := by
  decide

/-- C7 amended: with backup requested and a non-directory destination,
`backup_config` raises the non-directory `ValueError` and the sequence
halts before the upload step: the transfer is never opened, the device
record is finalized through the ValueError handler and returned, with
`connected` reset to false and its `error` field left empty (the message is
only logged, not stored). -/
theorem C7_backup_halts_before_upload (env : Env) (a : Args) (d : Device)
    (hb : a.backup_config = true) (hdir : env.backupIsDir = false)
    (hconn : connectOk env d = true) (he0 : d.error = "") :
    (upgradeBody env a d).out =
      .exc (.valueError ("Location is not a directory - " ++ a.backup_location)) ∧
    (upgrade_asa env a d).out = .ret (some ((upgrade_asa env a d).dev)) ∧
    (upgrade_asa env a d).dev.error = "" ∧
    (upgrade_asa env a d).dev.connected = false ∧
    Event.ftOpen ∉ (upgrade_asa env a d).events ∧
    Event.transferFile ∉ (upgrade_asa env a d).events := by
  rcases hc : connect_to_device d.credentials (["cisco_asa"]) env.attempt with ⟨tr, res⟩
  cases res with
  | error e => simp [connectOk, hc] at hconn
  | ok u =>
    cases u
    simp [upgrade_asa, upgradeBody, afterConnect, backup_config_call,
      hc, hb, hdir, he0]

/-- Witness for the amended C7 on a concrete run. -/
theorem C7_backup_halts_before_upload_witness :
    (upgradeBody okEnv badBackupArgs dev1).out =
      .exc (.valueError ("Location is not a directory - " ++
        badBackupArgs.backup_location)) ∧
    (upgrade_asa okEnv badBackupArgs dev1).out =
      .ret (some ((upgrade_asa okEnv badBackupArgs dev1).dev)) ∧
    (upgrade_asa okEnv badBackupArgs dev1).dev.error = "" ∧
    (upgrade_asa okEnv badBackupArgs dev1).dev.connected = false ∧
    Event.ftOpen ∉ (upgrade_asa okEnv badBackupArgs dev1).events ∧
    Event.transferFile ∉ (upgrade_asa okEnv badBackupArgs dev1).events :=
  C7_backup_halts_before_upload okEnv badBackupArgs dev1 rfl rfl (by decide) rfl

/-- C10: starting from a fresh device record, if the connection succeeds
(and no backup aborts the run first) then a non-raising upload failure, or
a successful upload without a reboot request, makes `upgrade_asa` return
`None`; and whenever it does return a device record, control went through
one of the two exception handlers or through the reboot path (whose probe
would appear in the trace). -/
theorem C10_none_return_paths (env : Env) (a : Args) (d : Device)
    (h0 : d.file_uploaded = false) :
    (connectOk env d = true → a.backup_config = false →
      (env.spaceAvailable = false ∨ (env.transferExc = none ∧ env.verifyOk = false)) →
      (upgrade_asa env a d).out = .ret none) ∧
    (connectOk env d = true → a.backup_config = false → env.spaceAvailable = true →
      env.transferExc = none → env.verifyOk = true → a.reboot = false →
      (upgrade_asa env a d).out = .ret none) ∧
    (∀ dev, (upgrade_asa env a d).out = .ret (some dev) →
      isExcHandled (upgradeBody env a d) = true ∨
        Event.ping d.ip_address ∈ (upgrade_asa env a d).events) := by
  rcases hc : connect_to_device d.credentials (["cisco_asa"]) env.attempt with ⟨tr, res⟩
  cases res with
  | error e =>
    cases e <;>
      simp [upgrade_asa, upgradeBody, connectOk, isExcHandled, hc, h0]
  | ok u =>
    cases u
    cases hb : a.backup_config with
    | true =>
      cases hdir : env.backupIsDir <;>
        simp [upgrade_asa, upgradeBody, afterConnect, backup_config_call,
          connectOk, isExcHandled, hc, hb, hdir, h0]
    | false =>
      cases hs : env.spaceAvailable <;>
      cases hv : env.verifyOk <;>
      cases hr : a.reboot <;>
      rcases ht : env.transferExc with _ | te <;>
      first
      | cases te <;>
          simp [upgrade_asa, upgradeBody, afterConnect, uploadPhase, afterTransfer,
            bootPhase, invokeConfigSet_misspelled, TransferErr.toExc, pyStrIs,
            connectOk, isExcHandled, hc, hb, hs, hv, hr, ht, h0]
      | simp [upgrade_asa, upgradeBody, afterConnect, uploadPhase, afterTransfer,
          bootPhase, invokeConfigSet_misspelled, TransferErr.toExc, pyStrIs,
          connectOk, isExcHandled, hc, hb, hs, hv, hr, ht, h0]

/-- Witness for C10 on the all-success run without reboot. -/
theorem C10_none_return_paths_witness :
    (connectOk okEnv dev1 = true → argsNoReboot.backup_config = false →
      (okEnv.spaceAvailable = false ∨
        (okEnv.transferExc = none ∧ okEnv.verifyOk = false)) →
      (upgrade_asa okEnv argsNoReboot dev1).out = .ret none) ∧
    (connectOk okEnv dev1 = true → argsNoReboot.backup_config = false →
      okEnv.spaceAvailable = true → okEnv.transferExc = none →
      okEnv.verifyOk = true → argsNoReboot.reboot = false →
      (upgrade_asa okEnv argsNoReboot dev1).out = .ret none) ∧
    (∀ dev, (upgrade_asa okEnv argsNoReboot dev1).out = .ret (some dev) →
      isExcHandled (upgradeBody okEnv argsNoReboot dev1) = true ∨
        Event.ping dev1.ip_address ∈ (upgrade_asa okEnv argsNoReboot dev1).events) :=
  C10_none_return_paths okEnv argsNoReboot dev1 rfl
